import Mathlib

/-!
Shallow embedding of src/deep_research.py (Nyne Deep Research).

The Python module orchestrates three asynchronous provider jobs
(profile enrichment, social following, article search), polls them,
derives follow-on inputs from the enrichment payload, and feeds the
aggregated data through a batched LLM analysis pipeline.

Modelling conventions:
- JSON dicts read through `.get(key, default)` become structures of
  `Option` fields read through `Option.getD`.
- Python string truthiness (`if s:` is false for `None` and `""`)
  is `pyTruthy`.
- HTTP traffic goes through an oracle `Net`; a `none` response models
  a raised transport exception, a `some` response models parsed JSON.
  Each embedded function also returns the list of outbound `NetCall`
  events it issued, so claims about "no outbound request" are statable.
- The thread pools only fan out writes to distinct slots which are
  joined before anyone reads them (wave-1 polls write distinct
  `ResearchResults` fields; batch analyses are index-sorted after the
  join), so the embedding runs those phases sequentially; order
  independence of the batch join is proved, not assumed.
-/

/-- Python truthiness of an optional string: `None` and `""` are falsy. -/
def pyTruthy : Option String → Bool
  | none => false
  | some s => s != ""

/-- Parsed JSON body of a submission response: `{success, data: {request_id}}`. -/
structure SubmitResp where
  success : Bool
  requestId : Option String
deriving DecidableEq

/-- One entry of the `careers_info` list inside an enrichment payload. -/
structure CareerEntry where
  companyName : Option String
deriving DecidableEq

/-- One network entry of the `social_profiles` dict (`.get("url")`). -/
structure SocialEntry where
  url : Option String
deriving DecidableEq

/-- Value of a missing `social_profiles` sub-dict (`.get(key, \x7b\x7d)`). -/
def SocialEntry.empty : SocialEntry := { url := none }

/-- The `social_profiles` dict of an enrichment payload. -/
structure SocialProfiles where
  twitter : Option SocialEntry
  instagram : Option SocialEntry
deriving DecidableEq

/-- Value of a missing `social_profiles` dict. -/
def SocialProfiles.empty : SocialProfiles := { twitter := none, instagram := none }

/-- One followed-account record from an interactions payload; `src` models
the `_source` tag that dossier generation stamps on each entry. -/
structure FollowEntry where
  handle : String
  src : Option String
deriving DecidableEq

/-- The `result` sub-dict of a completed poll payload: only the keys the
program actually reads are modelled. -/
structure ResultPayload where
  firstname : Option String
  lastname : Option String
  headline : Option String
  careersInfo : Option (List CareerEntry)
  socialProfiles : Option SocialProfiles
  interactions : Option (List FollowEntry)
deriving DecidableEq

/-- Value of a missing `result` sub-dict. -/
def ResultPayload.empty : ResultPayload :=
  { firstname := none, lastname := none, headline := none,
    careersInfo := none, socialProfiles := none, interactions := none }

/-- The `data` dict of a polling response: a `status` field plus payload.
This is the value `poll_result` hands back on completion. -/
structure PollData where
  status : Option String
  result : Option ResultPayload
deriving DecidableEq

/-- Value of a missing `data` dict (`data.get("data", \x7b\x7d)`). -/
def PollData.empty : PollData := { status := none, result := none }

/-- Parsed JSON body of a polling response: `{success, data}`. -/
structure PollResp where
  success : Bool
  data : Option PollData
deriving DecidableEq

/-- Body of `POST /person/enrichment`: fixed flags plus optional identifiers. -/
structure EnrichmentPayload where
  newsfeed : List String
  aiEnhancedSearch : Bool
  email : Option String
  socialMediaUrl : Option String
deriving DecidableEq

/-- Body of `POST /person/interactions` (`interactionType` models the JSON
key `type`, a Lean keyword). -/
structure FollowingPayload where
  interactionType : String
  socialMediaUrl : String
  maxResults : Nat
deriving DecidableEq

/-- Body of `POST /person/articlesearch`. -/
structure ArticlePayload where
  name : String
  company : String
  sort : String
  limit : Nat
deriving DecidableEq

/-- One outbound HTTP request issued by the embedded code. -/
inductive NetCall where
  | postEnrichment (p : EnrichmentPayload)
  | postFollowing (p : FollowingPayload)
  | postArticles (p : ArticlePayload)
  | getPoll (endpoint : String) (requestId : String)
deriving DecidableEq

/-- The provider side of the wire: what each request would come back as.
`none` models a raised transport/parse exception. Poll responses may vary
with the attempt number (third argument). -/
structure Net where
  enrichResp : EnrichmentPayload → Option SubmitResp
  followResp : FollowingPayload → Option SubmitResp
  articleResp : ArticlePayload → Option SubmitResp
  pollResp : String → String → Nat → Option PollResp

/-- Mirrors the dataclass `ResearchInput`. -/
structure ResearchInput where
  email : Option String
  linkedin_url : Option String
  twitter_url : Option String
  instagram_url : Option String
  name : Option String
  company : Option String
deriving DecidableEq

/-- The all-`None` input. -/
def ResearchInput.empty : ResearchInput :=
  { email := none, linkedin_url := none, twitter_url := none,
    instagram_url := none, name := none, company := none }

/-- Mirrors the dataclass `ResearchResults`. -/
structure ResearchResults where
  enrichment : Option PollData
  following_twitter : Option PollData
  following_instagram : Option PollData
  articles : Option PollData
  errors : Option (List String)
deriving DecidableEq

/-- Mirrors `ResearchResults(errors=\x7b\x7d)` built at the top of `deep_research`. -/
def ResearchResults.initial : ResearchResults :=
  { enrichment := none, following_twitter := none, following_instagram := none,
    articles := none, errors := some [] }

/-- Module-level configuration: the two Nyne credentials read from the
environment (`None` models an unset variable). -/
structure Config where
  nyneApiKey : Option String
  nyneApiSecret : Option String

/-- The header dict `get_headers` builds. -/
structure Headers where
  xApiKey : String
  xApiSecret : String
  contentType : String

/-- Mirrors `get_headers`: `None` when either credential is falsy. -/
def get_headers (cfg : Config) : Option Headers :=
  if pyTruthy cfg.nyneApiKey && pyTruthy cfg.nyneApiSecret then
    some { xApiKey := cfg.nyneApiKey.getD "", xApiSecret := cfg.nyneApiSecret.getD "",
           contentType := "application/json" }
  else none

/-- Shared parse of the three identical submission-response blocks:
`if data.get("success") and data.get("data").get("request_id"): return it`. -/
def parseSubmitResp : Option SubmitResp → Option String
  | none => none
  | some r => if r.success && pyTruthy r.requestId then r.requestId else none

/-- The enrichment request body `submit_enrichment` builds: the two fixed
flags always, the identifiers only when truthy. -/
def enrichPayload (input_data : ResearchInput) : EnrichmentPayload :=
  { newsfeed := ["all"], aiEnhancedSearch := true,
    email := if pyTruthy input_data.email then input_data.email else none,
    socialMediaUrl :=
      if pyTruthy input_data.linkedin_url then input_data.linkedin_url else none }

/-- Mirrors `submit_enrichment`: builds the payload (identifiers added only
when truthy) and always issues the POST; yields the request id or `None`. -/
def submit_enrichment (input_data : ResearchInput) (net : Net) :
    Option String × List NetCall :=
  (parseSubmitResp (net.enrichResp (enrichPayload input_data)),
   [NetCall.postEnrichment (enrichPayload input_data)])

/-- Mirrors `submit_following`: empty URL is a no-request no-op. -/
def submit_following (social_url : String) (net : Net) (max_results : Nat) :
    Option String × List NetCall :=
  if social_url == "" then (none, [])
  else
    let payload : FollowingPayload :=
      { interactionType := "following", socialMediaUrl := social_url,
        maxResults := max_results }
    (parseSubmitResp (net.followResp payload), [NetCall.postFollowing payload])

/-- Mirrors `submit_article_search`: either field falsy is a no-request no-op. -/
def submit_article_search (name company : String) (net : Net) :
    Option String × List NetCall :=
  if name == "" || company == "" then (none, [])
  else
    let payload : ArticlePayload :=
      { name := name, company := company, sort := "recent", limit := 15 }
    (parseSubmitResp (net.articleResp payload), [NetCall.postArticles payload])

/-- Tagged terminal outcome of one polling loop (the spec's JobResult). -/
inductive JobResult where
  | Completed (payload : PollData)
  | Failed
  | TimedOut
deriving DecidableEq

/-- What `poll_result` actually hands back for each outcome: the payload on
completion, `None` both on failure and on timeout. -/
def JobResult.toOption : JobResult → Option PollData
  | .Completed p => some p
  | .Failed => none
  | .TimedOut => none

/-- Instrumented polling loop outcome: tag plus the number of status-check
calls issued and the total units slept. -/
structure PollStats where
  outcome : JobResult
  calls : Nat
  sleepUnits : Nat
deriving DecidableEq

/-- Instrumented mirror of the `poll_result` loop body. First `Nat` is the
current attempt index handed to the oracle, second is remaining attempts.
A transport exception or a non-terminal status sleeps `delay` and retries;
`success` false or status `"failed"` stops as `Failed`; status `"completed"`
stops as `Completed`. -/
def pollTraceGo (respond : Nat → Option PollResp) (delay : Nat) :
    Nat → Nat → PollStats
  | _, 0 => { outcome := .TimedOut, calls := 0, sleepUnits := 0 }
  | k, Nat.succ n =>
    match respond k with
    | none =>
      let s := pollTraceGo respond delay (k + 1) n
      { outcome := s.outcome, calls := s.calls + 1, sleepUnits := s.sleepUnits + delay }
    | some resp =>
      if resp.success then
        let result_data := resp.data.getD PollData.empty
        let status := result_data.status.getD ""
        if status == "completed" then
          { outcome := .Completed result_data, calls := 1, sleepUnits := 0 }
        else if status == "failed" then
          { outcome := .Failed, calls := 1, sleepUnits := 0 }
        else
          let s := pollTraceGo respond delay (k + 1) n
          { outcome := s.outcome, calls := s.calls + 1, sleepUnits := s.sleepUnits + delay }
      else
        { outcome := .Failed, calls := 1, sleepUnits := 0 }

/-- Instrumented poll of one job handle. -/
def pollTrace (respond : Nat → Option PollResp) (max_attempts delay : Nat) : PollStats :=
  pollTraceGo respond delay 0 max_attempts

/-- Direct mirror of `poll_result` as written: returns the `data` dict when
its status is `"completed"`, `None` on protocol failure, status `"failed"`,
or attempt exhaustion. -/
def pollResultGo (respond : Nat → Option PollResp) : Nat → Nat → Option PollData
  | _, 0 => none
  | k, Nat.succ n =>
    match respond k with
    | none => pollResultGo respond (k + 1) n
    | some resp =>
      if resp.success then
        let result_data := resp.data.getD PollData.empty
        let status := result_data.status.getD ""
        if status == "completed" then some result_data
        else if status == "failed" then none
        else pollResultGo respond (k + 1) n
      else none

/-- Mirrors `poll_result(endpoint, request_id, headers, max_attempts, delay)`
with the wire abstracted into `respond`; the source defaults are 60 and 5. -/
def poll_result (respond : Nat → Option PollResp) (max_attempts delay : Nat) :
    Option PollData :=
  pollResultGo respond 0 max_attempts

theorem pollResultGo_eq_trace (respond : Nat → Option PollResp) (delay : Nat) :
    ∀ n k, pollResultGo respond k n =
      (pollTraceGo respond delay k n).outcome.toOption := by
  intro n
  induction n with
  | zero => intro k; rfl
  | succ n ih =>
    intro k
    simp only [pollResultGo, pollTraceGo]
    cases respond k with
    | none => simpa using ih (k + 1)
    | some resp =>
      cases hsucc : resp.success with
      | false => simp [hsucc, JobResult.toOption]
      | true =>
        by_cases hc : ((resp.data.getD PollData.empty).status.getD "" == "completed") = true
        · simp [hsucc, hc, JobResult.toOption]
        · by_cases hf : ((resp.data.getD PollData.empty).status.getD "" == "failed") = true
          · simp [hsucc, hc, hf, JobResult.toOption]
          · simpa [hsucc, hc, hf] using ih (k + 1)

/-- The request ids collected in phase 1 (the `request_ids` dict: a key is
present exactly when the corresponding submission yielded a truthy id). -/
structure SubmitIds where
  enrichment : Option String
  following_twitter : Option String
  following_instagram : Option String
  articles : Option String
deriving DecidableEq

/-- Mirrors `if not request_ids:`. -/
def SubmitIds.isEmpty (ids : SubmitIds) : Bool :=
  ids.enrichment.isNone && ids.following_twitter.isNone &&
    ids.following_instagram.isNone && ids.articles.isNone

/-- Phase 1 of `deep_research`: enrichment is always submitted; following
only per caller-supplied truthy URL; article search only when name and
company are both already known. -/
def submitPhase (input_data : ResearchInput) (net : Net) :
    SubmitIds × List NetCall :=
  let enrich := submit_enrichment input_data net
  let tw :=
    if pyTruthy input_data.twitter_url then
      submit_following (input_data.twitter_url.getD "") net 500
    else (none, [])
  let ig :=
    if pyTruthy input_data.instagram_url then
      submit_following (input_data.instagram_url.getD "") net 500
    else (none, [])
  let art :=
    if pyTruthy input_data.name && pyTruthy input_data.company then
      submit_article_search (input_data.name.getD "") (input_data.company.getD "") net
    else (none, [])
  ({ enrichment := enrich.1, following_twitter := tw.1,
     following_instagram := ig.1, articles := art.1 },
   enrich.2 ++ tw.2 ++ ig.2 ++ art.2)

/-- One `poll_task`: poll a handle if it exists (source defaults 60/5);
the GET log is one entry per status-check call actually made. -/
def pollJob (endpoint : String) (rid : Option String) (net : Net) :
    Option PollData × List NetCall :=
  match rid with
  | none => (none, [])
  | some id =>
    (poll_result (net.pollResp endpoint id) 60 5,
     List.replicate (pollTrace (net.pollResp endpoint id) 60 5).calls
       (NetCall.getPoll endpoint id))

/-- Phase 2 of `deep_research`: every submitted job is polled to a terminal
state and each completed payload is written to its own field. The thread
pool joins all four before phase 3 reads anything, and each worker writes a
distinct field, so the pooled phase is modelled sequentially. -/
def pollPhase (ids : SubmitIds) (net : Net) : ResearchResults × List NetCall :=
  let enr := pollJob "/person/enrichment" ids.enrichment net
  let ftw := pollJob "/person/interactions" ids.following_twitter net
  let fig := pollJob "/person/interactions" ids.following_instagram net
  let art := pollJob "/person/articlesearch" ids.articles net
  ({ enrichment := enr.1, following_twitter := ftw.1, following_instagram := fig.1,
     articles := art.1, errors := some [] },
   enr.2 ++ ftw.2 ++ fig.2 ++ art.2)

/-- The name/company derivation at the top of phase 3: name from
`firstname`/`lastname` when both nonempty, company from the first
`careers_info` entry (possibly set to `""`), each only when the caller
field is still falsy. -/
def deriveNameCompany (input_data : ResearchInput) (result_data : ResultPayload) :
    ResearchInput :=
  let input1 :=
    if pyTruthy input_data.name then input_data
    else
      let first := result_data.firstname.getD ""
      let last := result_data.lastname.getD ""
      if first != "" && last != "" then
        { input_data with name := some (first ++ " " ++ last) }
      else input_data
  if pyTruthy input1.company then input1
  else
    match result_data.careersInfo.getD [] with
    | [] => input1
    | c :: _ => { input1 with company := some (c.companyName.getD "") }

/-- Wave-2 article search: runs only when name and company are truthy and
`"articles"` was not in `request_ids`; a completed poll writes the slot. -/
def wave2Articles (input_data : ResearchInput) (artId : Option String)
    (results : ResearchResults) (net : Net) : ResearchResults × List NetCall :=
  if pyTruthy input_data.name && pyTruthy input_data.company && artId.isNone then
    let sub := submit_article_search (input_data.name.getD "")
      (input_data.company.getD "") net
    match sub.1 with
    | none => (results, sub.2)
    | some id =>
      let pl := pollJob "/person/articlesearch" (some id) net
      match pl.1 with
      | none => (results, sub.2 ++ pl.2)
      | some r => ({ results with articles := some r }, sub.2 ++ pl.2)
  else (results, [])

/-- Wave-2 Twitter following: runs only when `"following_twitter"` was not
in `request_ids` and the slot is still empty, using the URL discovered in
the enrichment payload. -/
def wave2Twitter (twId : Option String) (results : ResearchResults)
    (social_profiles : SocialProfiles) (net : Net) :
    ResearchResults × List NetCall :=
  if twId.isNone && results.following_twitter.isNone then
    let twitter := social_profiles.twitter.getD SocialEntry.empty
    match twitter.url with
    | none => (results, [])
    | some twitter_url =>
      if twitter_url != "" then
        let sub := submit_following twitter_url net 500
        match sub.1 with
        | none => (results, sub.2)
        | some id =>
          let pl := pollJob "/person/interactions" (some id) net
          match pl.1 with
          | none => (results, sub.2 ++ pl.2)
          | some r => ({ results with following_twitter := some r }, sub.2 ++ pl.2)
      else (results, [])
  else (results, [])

/-- Wave-2 Instagram following, same shape as the Twitter branch. -/
def wave2Instagram (igId : Option String) (results : ResearchResults)
    (social_profiles : SocialProfiles) (net : Net) :
    ResearchResults × List NetCall :=
  if igId.isNone && results.following_instagram.isNone then
    let instagram := social_profiles.instagram.getD SocialEntry.empty
    match instagram.url with
    | none => (results, [])
    | some instagram_url =>
      if instagram_url != "" then
        let sub := submit_following instagram_url net 500
        match sub.1 with
        | none => (results, sub.2)
        | some id =>
          let pl := pollJob "/person/interactions" (some id) net
          match pl.1 with
          | none => (results, sub.2 ++ pl.2)
          | some r => ({ results with following_instagram := some r }, sub.2 ++ pl.2)
      else (results, [])
  else (results, [])

/-- Phase 3 of `deep_research`: gated on an enrichment payload being
present; derives name/company, then runs the three wave-2 branches in
source order. Returns the final results, the (mutated) input record and
the wave-2 network log. -/
def extractPhase (input_data : ResearchInput) (results : ResearchResults)
    (ids : SubmitIds) (net : Net) :
    ResearchResults × ResearchInput × List NetCall :=
  match results.enrichment with
  | none => (results, input_data, [])
  | some enr =>
    let result_data := enr.result.getD ResultPayload.empty
    let input1 := deriveNameCompany input_data result_data
    let stepA := wave2Articles input1 ids.articles results net
    let social_profiles := result_data.socialProfiles.getD SocialProfiles.empty
    let stepT := wave2Twitter ids.following_twitter stepA.1 social_profiles net
    let stepI := wave2Instagram ids.following_instagram stepT.1 social_profiles net
    (stepI.1, input1, stepA.2 ++ stepT.2 ++ stepI.2)

/-- Mirrors `deep_research`: credential check, wave-1 submissions, the
no-handles early return, wave-1 polling, then phase 3. The returned triple
exposes the accumulated results, the final state of the caller-supplied
input record (the source mutates it in place) and the outbound network log. -/
def deep_research (input_data : ResearchInput) (cfg : Config) (net : Net) :
    ResearchResults × ResearchInput × List NetCall :=
  match get_headers cfg with
  | none => (ResearchResults.initial, input_data, [])
  | some _hd =>
    let sub := submitPhase input_data net
    if sub.1.isEmpty then (ResearchResults.initial, input_data, sub.2)
    else
      let pol := pollPhase sub.1 net
      let ext := extractPhase input_data pol.1 sub.1 net
      (ext.1, ext.2.1, sub.2 ++ pol.2 ++ ext.2.2)

/-- The three concrete text-generation backends. -/
inductive LLMName where
  | gemini
  | openai
  | anthropic
deriving DecidableEq

/-- The three LLM API keys read from the environment. -/
structure LLMConfig where
  geminiKey : Option String
  openaiKey : Option String
  anthropicKey : Option String

/-- What each backend would answer for a given prompt; `none` models a
missing key, an exception or an unusable response. -/
structure LLMEnv where
  gemini : String → Option String
  openai : String → Option String
  anthropic : String → Option String

/-- Mirrors `_call_gemini`: `None` without a key, otherwise the call result. -/
def call_gemini (cfg : LLMConfig) (env : LLMEnv) (prompt : String) : Option String :=
  if pyTruthy cfg.geminiKey then env.gemini prompt else none

/-- Mirrors `_call_openai`. -/
def call_openai (cfg : LLMConfig) (env : LLMEnv) (prompt : String) : Option String :=
  if pyTruthy cfg.openaiKey then env.openai prompt else none

/-- Mirrors `_call_anthropic`. -/
def call_anthropic (cfg : LLMConfig) (env : LLMEnv) (prompt : String) : Option String :=
  if pyTruthy cfg.anthropicKey then env.anthropic prompt else none

/-- Dispatch a named backend to its call function. -/
def call_llm (b : LLMName) (cfg : LLMConfig) (env : LLMEnv) (prompt : String) :
    Option String :=
  match b with
  | .gemini => call_gemini cfg env prompt
  | .openai => call_openai cfg env prompt
  | .anthropic => call_anthropic cfg env prompt

/-- Mirrors `_get_llm_caller`: an explicit backend is honoured only when its
key is configured; `"auto"` picks the first configured key in the fixed
order gemini, openai, anthropic. Selection looks only at keys, never at
whether a call would succeed. -/
def get_llm_caller (cfg : LLMConfig) (llm : String) : Option LLMName :=
  if llm == "gemini" && pyTruthy cfg.geminiKey then some .gemini
  else if llm == "openai" && pyTruthy cfg.openaiKey then some .openai
  else if llm == "anthropic" && pyTruthy cfg.anthropicKey then some .anthropic
  else if llm == "auto" then
    if pyTruthy cfg.geminiKey then some .gemini
    else if pyTruthy cfg.openaiKey then some .openai
    else if pyTruthy cfg.anthropicKey then some .anthropic
    else none
  else none

/-- Concrete rendering of one followed account (stands in for the
`json.dumps` of the entry inside a batch prompt). -/
def encodeFollowEntry (e : FollowEntry) : String :=
  e.handle ++ "/" ++ e.src.getD ""

/-- Concrete rendering of a batch of followed accounts. -/
def encodeEntries (l : List FollowEntry) : String :=
  String.intercalate ", " (l.map encodeFollowEntry)

/-- Concrete rendering of a poll payload (stands in for `json.dumps` of the
provider dict; the claims under proof never depend on this text). -/
def encodePollData (d : PollData) : String :=
  "status=" ++ d.status.getD "" ++ ";result=" ++
    (match d.result with
     | none => "-"
     | some rp =>
       rp.firstname.getD "" ++ " " ++ rp.lastname.getD "" ++ " " ++
         String.intercalate "," ((rp.interactions.getD []).map encodeFollowEntry))

/-- The source-tagging loop: every entry of one network's interactions list
gets its `_source` field set before the merge. -/
def tagSource (src : String) (l : List FollowEntry) : List FollowEntry :=
  l.map fun e => { e with src := some src }

/-- The merged following list of `generate_dossier`: Twitter entries (tagged)
concatenated with Instagram entries (tagged), in provider order. -/
def allFollowing (results : ResearchResults) : List FollowEntry :=
  (match results.following_twitter with
   | some d => tagSource "twitter" ((d.result.getD ResultPayload.empty).interactions.getD [])
   | none => []) ++
  (match results.following_instagram with
   | some d => tagSource "instagram" ((d.result.getD ResultPayload.empty).interactions.getD [])
   | none => [])

/-- Mirrors the batching comprehension of `generate_dossier`: consecutive
windows of `batch_size` entries, empty input giving no batches. -/
def batchFollowing (l : List FollowEntry) (batch_size : Nat) :
    List (List FollowEntry) :=
  match l with
  | [] => []
  | _ =>
    (List.range ((l.length + batch_size - 1) / batch_size)).map
      fun i => (l.drop (i * batch_size)).take batch_size

/-- Template of one batch-analysis prompt (source text abridged; the
placeholder structure of `BATCH_ANALYSIS_PROMPT.format` is preserved). -/
def batchAnalysisPrompt (person_name person_role person_company : String)
    (bsize bnum btotal : Nat) (batch_data : String) : String :=
  "You are analyzing a batch of social media accounts that a person follows." ++
    " Name: " ++ person_name ++ " Role: " ++ person_role ++
    " Company: " ++ person_company ++ " Batch " ++ toString bnum ++ " of " ++
    toString btotal ++ " holding " ++ toString bsize ++ " accounts: " ++ batch_data

/-- Template of the synthesis prompt (source text abridged; the placeholder
structure of `SYNTHESIS_PROMPT.format` is preserved). -/
def synthesisPrompt (enrichment_data following_analyses articles_data : String) :
    String :=
  "You are an elite intelligence analyst creating the DEFINITIVE dossier." ++
    " ENRICHMENT DATA: " ++ enrichment_data ++
    " FOLLOWING ANALYSES: " ++ following_analyses ++
    " ARTICLES AND PRESS: " ++ articles_data

/-- The explicit index sort run after the concurrent batch phase
(`following_analyses.sort` keyed on the batch index; Python sorts stably,
as insertion sort does). -/
def sortAnalyses (l : List (Nat × String)) : List (Nat × String) :=
  List.insertionSort (fun a b => a.1 ≤ b.1) l

/-- The concurrent batch-analysis fan-out: every prompt is dispatched, each
successful result is collected tagged with its originating index, failures
are dropped, and the join sorts by index before the texts are read off.
`as_completed` hands results back in an arbitrary order; order independence
of the final sequence is proved separately, so collection order here is
immaterial. -/
def runBatchAnalyses (b : LLMName) (cfg : LLMConfig) (env : LLMEnv)
    (batch_prompts : List (Nat × String)) : List String :=
  let collected := batch_prompts.filterMap
    fun ip => (call_llm b cfg env ip.2).map fun a => (ip.1, a)
  (sortAnalyses collected).map Prod.snd

/-- The person-context extraction at the top of `generate_dossier`. -/
def personContext (results : ResearchResults) : String × String × String :=
  let enrichment := results.enrichment.getD PollData.empty
  let result_data := enrichment.result.getD ResultPayload.empty
  let person_name0 :=
    ((result_data.firstname.getD "") ++ " " ++ (result_data.lastname.getD "")).trim
  let person_name := if person_name0 == "" then "Unknown" else person_name0
  let person_role := result_data.headline.getD "Unknown"
  let person_company :=
    match result_data.careersInfo.getD [] with
    | [] => "Unknown"
    | c :: _ => c.companyName.getD "Unknown"
  (person_name, person_role, person_company)

/-- Mirrors `generate_dossier` (the primary, batched generator): one backend
is chosen from the key configuration alone; every batch prompt and the final
synthesis prompt go to that single backend. -/
def generate_dossier (results : ResearchResults) (cfg : LLMConfig)
    (env : LLMEnv) (llm : String) : Option String :=
  match get_llm_caller cfg llm with
  | none => none
  | some backend =>
    let ctx := personContext results
    let all_following := allFollowing results
    let batches := batchFollowing all_following 75
    let batch_prompts := batches.enum.map fun ib =>
      (ib.1, batchAnalysisPrompt ctx.1 ctx.2.1 ctx.2.2 ib.2.length (ib.1 + 1)
        batches.length (encodeEntries ib.2))
    let following_analyses := runBatchAnalyses backend cfg env batch_prompts
    let enrichment_str :=
      match results.enrichment with
      | some e => encodePollData e
      | none => "No enrichment data"
    let following_str :=
      if following_analyses.isEmpty then "No following data analyzed"
      else String.intercalate "\n\n---\n\n" following_analyses
    let articles_str :=
      match results.articles with
      | some a => encodePollData a
      | none => "No articles found"
    call_llm backend cfg env (synthesisPrompt enrichment_str following_str articles_str)

/-- The non-empty fields collected into the legacy `data` dict, in source
order. -/
def dossierData (results : ResearchResults) : List (String × PollData) :=
  (match results.enrichment with | some e => [("enrichment", e)] | none => []) ++
  (match results.following_twitter with
   | some e => [("following_twitter", e)] | none => []) ++
  (match results.following_instagram with
   | some e => [("following_instagram", e)] | none => []) ++
  (match results.articles with | some e => [("articles", e)] | none => [])

/-- The legacy single-call dossier prompt (`DOSSIER_PROMPT.format`, text
abridged) applied to the collected data dict. -/
def legacyPrompt (results : ResearchResults) : String :=
  "You are an elite intelligence analyst creating a comprehensive dossier." ++
    " RAW DATA: " ++ String.intercalate "; "
      ((dossierData results).map fun kv => kv.1 ++ "=" ++ encodePollData kv.2)

/-- First successful generator of the legacy try-in-order loop. -/
def firstSome : List (Option String) → Option String
  | [] => none
  | none :: rest => firstSome rest
  | some x :: _ => some x

/-- Mirrors `_legacy_generate_dossier`: with no data, nothing is generated;
`"auto"` walks gemini, openai, anthropic in order and stops at the first
generator that produces text. -/
def legacy_generate_dossier (results : ResearchResults) (cfg : LLMConfig)
    (env : LLMEnv) (llm : String) : Option String :=
  if (dossierData results).isEmpty then none
  else
    let generators : List LLMName :=
      if llm == "auto" then [.gemini, .openai, .anthropic]
      else if llm == "gemini" then [.gemini]
      else if llm == "openai" then [.openai]
      else if llm == "anthropic" then [.anthropic]
      else []
    firstSome (generators.map fun g => call_llm g cfg env (legacyPrompt results))

/-- A polling response that terminates none of the loop's exits: either a
transport exception or a successful response whose status is neither
`"completed"` nor `"failed"`. -/
def nonTerminal (r : Option PollResp) : Bool :=
  match r with
  | none => true
  | some resp =>
    resp.success &&
      ((resp.data.getD PollData.empty).status.getD "" != "completed") &&
      ((resp.data.getD PollData.empty).status.getD "" != "failed")

theorem pollTraceGo_nonTerminal (respond : Nat → Option PollResp) (delay : Nat) :
    ∀ n k, (∀ j, j < n → nonTerminal (respond (k + j)) = true) →
      pollTraceGo respond delay k n =
        { outcome := JobResult.TimedOut, calls := n, sleepUnits := n * delay } := by
  intro n
  induction n with
  | zero => intro k _; simp [pollTraceGo]
  | succ n ih =>
    intro k h
    have h0 : nonTerminal (respond k) = true := by
      simpa using h 0 (Nat.succ_pos n)
    have hrest : ∀ j, j < n → nonTerminal (respond (k + 1 + j)) = true := by
      intro j hj
      have := h (j + 1) (Nat.succ_lt_succ hj)
      simpa [Nat.add_assoc, Nat.add_comm 1 j] using this
    have hrec := ih (k + 1) hrest
    simp only [pollTraceGo]
    cases hr : respond k with
    | none =>
      simp [hrec, Nat.succ_mul, Nat.add_comm]
    | some resp =>
      rw [hr] at h0
      simp only [nonTerminal, Bool.and_eq_true] at h0
      obtain ⟨⟨hsucc, hcne⟩, hfne⟩ := h0
      have hc : ((resp.data.getD PollData.empty).status.getD "" == "completed") = false := by
        simpa using hcne
      have hf : ((resp.data.getD PollData.empty).status.getD "" == "failed") = false := by
        simpa using hfne
      simp [hsucc, hc, hf, hrec, Nat.succ_mul, Nat.add_comm]

/-- C3: when every status check within the attempt ceiling comes back
non-terminal (any pending-like status or a transport error), the polling
loop makes exactly `max_attempts` status-check calls — never fewer, never
more — sleeps the fixed delay after each of them (total `max_attempts *
delay` time units, 300 at the source defaults 60 and 5), ends as
`TimedOut`, and `poll_result` reports that as `None`. -/
theorem C3_poll_timeout_exact_attempts (respond : Nat → Option PollResp)
    (max_attempts delay : Nat)
    (h : ∀ k, k < max_attempts → nonTerminal (respond k) = true) :
    pollTrace respond max_attempts delay =
      { outcome := JobResult.TimedOut, calls := max_attempts,
        sleepUnits := max_attempts * delay } ∧
    poll_result respond max_attempts delay = none := by
  have htr := pollTraceGo_nonTerminal respond delay max_attempts 0
    (by intro j hj; simpa using h j hj)
  refine ⟨htr, ?_⟩
  have := pollResultGo_eq_trace respond delay max_attempts 0
  simp only [poll_result, pollTrace] at htr ⊢
  rw [this, htr]
  rfl

/-- A provider that always answers with a pending status. -/
def alwaysPending : Nat → Option PollResp :=
  fun _ => some { success := true, data := some { status := some "pending", result := none } }

/-- Witness for C3 at the source defaults: exactly 60 calls, 300 units
slept, `TimedOut`, and `None` returned. -/
theorem C3_poll_timeout_exact_attempts_witness :
    pollTrace alwaysPending 60 5 =
      { outcome := JobResult.TimedOut, calls := 60, sleepUnits := 300 } ∧
    poll_result alwaysPending 60 5 = none :=
  C3_poll_timeout_exact_attempts alwaysPending 60 5 (fun _ _ => rfl)

/-- A provider that always answers with status `"failed"`. -/
def alwaysFailedStatus : Nat → Option PollResp :=
  fun _ => some { success := true, data := some { status := some "failed", result := none } }

/-- C2 (counterexample): a job that fails on its first status check and a
job that runs into the attempt ceiling are different terminal outcomes of
the loop (`Failed` after one call versus `TimedOut` after sixty), yet
`poll_result` hands the caller the very same value `None` for both — the
returned outcome does not let a caller tell a failed job apart from a
timed-out one. -/
theorem C2_poll_result_counterexample :
    pollTrace alwaysFailedStatus 60 5 =
      { outcome := JobResult.Failed, calls := 1, sleepUnits := 0 } ∧
    (pollTrace alwaysPending 60 5).outcome = JobResult.TimedOut ∧
    poll_result alwaysFailedStatus 60 5 = none ∧
    poll_result alwaysPending 60 5 = none := by
  exact ⟨rfl, rfl, rfl, rfl⟩

/-- C2 (amended): the loop does reach one of the three tagged terminal
outcomes (`Completed`/`Failed`/`TimedOut`, the instrumented trace), but
`poll_result` returns only the collapse of that tag — the payload for
`Completed`, and `None` for both `Failed` and `TimedOut`; completion is
distinguishable from non-completion, failure is not distinguishable from
timeout. -/
theorem C2_poll_result_collapse (respond : Nat → Option PollResp)
    (max_attempts delay : Nat) :
    poll_result respond max_attempts delay =
      (pollTrace respond max_attempts delay).outcome.toOption :=
  pollResultGo_eq_trace respond delay max_attempts 0

/-- The enrichment body built from an input with no identifiers: just the
two fixed flags. -/
def emptyEnrichPayload : EnrichmentPayload :=
  { newsfeed := ["all"], aiEnhancedSearch := true, email := none, socialMediaUrl := none }

/-- A provider on which every request errors or yields no request id. -/
def noIdNet : Net :=
  { enrichResp := fun _ => none, followResp := fun _ => none,
    articleResp := fun _ => none, pollResp := fun _ _ _ => none }

/-- A configuration with both Nyne credentials present. -/
def testCfg : Config := { nyneApiKey := some "key", nyneApiSecret := some "secret" }

/-- An input carrying only a (valid) email. -/
def emailOnlyInput : ResearchInput :=
  { email := some "a@b.example", linkedin_url := none, twitter_url := none,
    instagram_url := none, name := none, company := none }

/-- C1 (counterexample): with neither email nor linkedin present,
`submit_enrichment` still issues one outbound POST carrying only the fixed
flags — so the whole-run network log of `deep_research` on the all-empty
input is not empty — and its no-valid-input outcome is the very value
(`None`) it also yields for a network failure on a valid submission, not a
distinct outcome. -/
theorem C1_counterexample :
    (submit_enrichment ResearchInput.empty noIdNet).2 =
      [NetCall.postEnrichment emptyEnrichPayload] ∧
    (deep_research ResearchInput.empty testCfg noIdNet).2.2 =
      [NetCall.postEnrichment emptyEnrichPayload] ∧
    (submit_enrichment ResearchInput.empty noIdNet).1 =
      (submit_enrichment emailOnlyInput noIdNet).1 := by
  exact ⟨rfl, rfl, rfl⟩

/-- C1 (amended): with credentials present, an all-falsy `ResearchInput`
still causes exactly one outbound request — the flag-only enrichment POST —
and, provided the provider does not answer it with a request id, the
orchestrator collects zero job handles, polls nothing, and returns the
all-empty `ResearchResults` with the input unchanged and no error. -/
theorem C1_amended_empty_input_run (input : ResearchInput) (cfg : Config)
    (net : Net) (hd : Headers)
    (hcred : get_headers cfg = some hd)
    (hemail : pyTruthy input.email = false)
    (hlink : pyTruthy input.linkedin_url = false)
    (htw : pyTruthy input.twitter_url = false)
    (hig : pyTruthy input.instagram_url = false)
    (hname : pyTruthy input.name = false)
    (hcomp : pyTruthy input.company = false)
    (hresp : parseSubmitResp (net.enrichResp emptyEnrichPayload) = none) :
    deep_research input cfg net =
      (ResearchResults.initial, input, [NetCall.postEnrichment emptyEnrichPayload]) := by
  have hpay : enrichPayload input = emptyEnrichPayload := by
    simp [enrichPayload, emptyEnrichPayload, hemail, hlink]
  simp [deep_research, hcred, submitPhase, submit_enrichment, hpay, hresp,
    htw, hig, hname, SubmitIds.isEmpty]

/-- Witness for C1 (amended) on the concrete empty input, good credentials
and a dead provider. -/
theorem C1_amended_empty_input_run_witness :
    deep_research ResearchInput.empty testCfg noIdNet =
      (ResearchResults.initial, ResearchInput.empty,
       [NetCall.postEnrichment emptyEnrichPayload]) :=
  C1_amended_empty_input_run ResearchInput.empty testCfg noIdNet
    { xApiKey := "key", xApiSecret := "secret", contentType := "application/json" }
    rfl rfl rfl rfl rfl rfl rfl rfl

/-- C5: if either provider credential is missing (falsy), `get_headers`
yields nothing and the research run aborts at once — zero outbound requests
(no submission, no polling), the caller-supplied input untouched, and the
all-empty `ResearchResults` returned; and this is the only hard stop: with
both credentials present the run always proceeds to network activity, its
first outbound call being the enrichment POST, whatever the input. (The
missing-credential condition is reported to the caller by a console warning,
which is outside this embedding.) -/
theorem C5_missing_credentials_hard_stop (input : ResearchInput) (cfg : Config)
    (net : Net) :
    (get_headers cfg = none ↔
      (pyTruthy cfg.nyneApiKey = false ∨ pyTruthy cfg.nyneApiSecret = false)) ∧
    (get_headers cfg = none →
      deep_research input cfg net = (ResearchResults.initial, input, [])) ∧
    (∀ hd, get_headers cfg = some hd →
      ∃ rest, (deep_research input cfg net).2.2 =
        NetCall.postEnrichment (enrichPayload input) :: rest) := by
  refine ⟨?_, ?_, ?_⟩
  · unfold get_headers
    cases hk : pyTruthy cfg.nyneApiKey <;> cases hs : pyTruthy cfg.nyneApiSecret <;>
      simp [hk, hs]
  · intro h
    simp [deep_research, h]
  · intro hd h
    simp only [deep_research, h]
    by_cases he : ((submitPhase input net).1).isEmpty = true
    · refine ⟨((submitPhase input net).2).tail, ?_⟩
      simp only [he, if_true]
      simp [submitPhase, submit_enrichment]
    · refine ⟨((submitPhase input net).2).tail ++ (pollPhase (submitPhase input net).1 net).2 ++
        (extractPhase input (pollPhase (submitPhase input net).1 net).1 (submitPhase input net).1 net).2.2, ?_⟩
      simp only [Bool.not_eq_true] at he
      simp only [he, Bool.false_eq_true, if_false]
      simp [submitPhase, submit_enrichment]

/-- A configuration with the API key set but the secret missing. -/
def cfgNoSecret : Config := { nyneApiKey := some "key", nyneApiSecret := none }

/-- Witness for C5: with the secret missing the run returns the empty
result with an empty network log; with both credentials present the same
input produces a log beginning with the enrichment POST. -/
theorem C5_missing_credentials_hard_stop_witness :
    deep_research emailOnlyInput cfgNoSecret noIdNet =
      (ResearchResults.initial, emailOnlyInput, []) ∧
    (∃ rest, (deep_research emailOnlyInput testCfg noIdNet).2.2 =
      NetCall.postEnrichment (enrichPayload emailOnlyInput) :: rest) :=
  ⟨(C5_missing_credentials_hard_stop emailOnlyInput cfgNoSecret noIdNet).2.1 rfl,
   (C5_missing_credentials_hard_stop emailOnlyInput testCfg noIdNet).2.2
     { xApiKey := "key", xApiSecret := "secret", contentType := "application/json" } rfl⟩

theorem wave2Articles_skip (input : ResearchInput) (id : String)
    (results : ResearchResults) (net : Net) :
    wave2Articles input (some id) results net = (results, []) := by
  simp [wave2Articles]

theorem wave2Twitter_skip (id : String) (results : ResearchResults)
    (sp : SocialProfiles) (net : Net) :
    wave2Twitter (some id) results sp net = (results, []) := by
  simp [wave2Twitter]

theorem wave2Instagram_skip (id : String) (results : ResearchResults)
    (sp : SocialProfiles) (net : Net) :
    wave2Instagram (some id) results sp net = (results, []) := by
  simp [wave2Instagram]

theorem wave2Twitter_slot_filled (twId : Option String) (results : ResearchResults)
    (sp : SocialProfiles) (net : Net) (p : PollData)
    (h : results.following_twitter = some p) :
    wave2Twitter twId results sp net = (results, []) := by
  simp [wave2Twitter, h]

theorem wave2Instagram_slot_filled (igId : Option String) (results : ResearchResults)
    (sp : SocialProfiles) (net : Net) (p : PollData)
    (h : results.following_instagram = some p) :
    wave2Instagram igId results sp net = (results, []) := by
  simp [wave2Instagram, h]

theorem wave2Articles_frame (input : ResearchInput) (artId : Option String)
    (results : ResearchResults) (net : Net) :
    (wave2Articles input artId results net).1.enrichment = results.enrichment ∧
    (wave2Articles input artId results net).1.following_twitter = results.following_twitter ∧
    (wave2Articles input artId results net).1.following_instagram = results.following_instagram := by
  unfold wave2Articles
  split
  · cases hsub : (submit_article_search (input.name.getD "") (input.company.getD "") net).1 with
    | none => simp [hsub]
    | some id =>
      cases hpl : (pollJob "/person/articlesearch" (some id) net).1 with
      | none => simp [hsub, hpl]
      | some r => simp [hsub, hpl]
  · simp

theorem wave2Twitter_frame (twId : Option String) (results : ResearchResults)
    (sp : SocialProfiles) (net : Net) :
    (wave2Twitter twId results sp net).1.enrichment = results.enrichment ∧
    (wave2Twitter twId results sp net).1.articles = results.articles ∧
    (wave2Twitter twId results sp net).1.following_instagram = results.following_instagram := by
  unfold wave2Twitter
  split
  · cases hurl : (sp.twitter.getD SocialEntry.empty).url with
    | none => simp [hurl]
    | some u =>
      by_cases hu : (u != "") = true
      · cases hsub : (submit_following u net 500).1 with
        | none => simp [hurl, hu, hsub]
        | some id =>
          cases hpl : (pollJob "/person/interactions" (some id) net).1 with
          | none => simp [hurl, hu, hsub, hpl]
          | some r => simp [hurl, hu, hsub, hpl]
      · simp [hurl, hu]
  · simp

theorem wave2Instagram_frame (igId : Option String) (results : ResearchResults)
    (sp : SocialProfiles) (net : Net) :
    (wave2Instagram igId results sp net).1.enrichment = results.enrichment ∧
    (wave2Instagram igId results sp net).1.articles = results.articles ∧
    (wave2Instagram igId results sp net).1.following_twitter = results.following_twitter := by
  unfold wave2Instagram
  split
  · cases hurl : (sp.instagram.getD SocialEntry.empty).url with
    | none => simp [hurl]
    | some u =>
      by_cases hu : (u != "") = true
      · cases hsub : (submit_following u net 500).1 with
        | none => simp [hurl, hu, hsub]
        | some id =>
          cases hpl : (pollJob "/person/interactions" (some id) net).1 with
          | none => simp [hurl, hu, hsub, hpl]
          | some r => simp [hurl, hu, hsub, hpl]
      · simp [hurl, hu]
  · simp

theorem pollPhase_enrichment_none (ids : SubmitIds) (net : Net)
    (h : ids.enrichment = none) : (pollPhase ids net).1.enrichment = none := by
  simp [pollPhase, h, pollJob]

theorem pollPhase_twitter_none (ids : SubmitIds) (net : Net)
    (h : ids.following_twitter = none) :
    (pollPhase ids net).1.following_twitter = none := by
  simp [pollPhase, h, pollJob]

theorem pollPhase_instagram_none (ids : SubmitIds) (net : Net)
    (h : ids.following_instagram = none) :
    (pollPhase ids net).1.following_instagram = none := by
  simp [pollPhase, h, pollJob]

theorem pollPhase_articles_none (ids : SubmitIds) (net : Net)
    (h : ids.articles = none) : (pollPhase ids net).1.articles = none := by
  simp [pollPhase, h, pollJob]

theorem submitIds_isEmpty_eq (ids : SubmitIds) (h : ids.isEmpty = true) :
    ids.enrichment = none ∧ ids.following_twitter = none ∧
    ids.following_instagram = none ∧ ids.articles = none := by
  simp only [SubmitIds.isEmpty, Bool.and_eq_true] at h
  exact ⟨Option.isNone_iff_eq_none.mp h.1.1.1, Option.isNone_iff_eq_none.mp h.1.1.2,
    Option.isNone_iff_eq_none.mp h.1.2, Option.isNone_iff_eq_none.mp h.2⟩

theorem extractPhase_enrichment (input_data : ResearchInput) (res : ResearchResults)
    (ids : SubmitIds) (net : Net) :
    (extractPhase input_data res ids net).1.enrichment = res.enrichment := by
  cases hres : res.enrichment with
  | none => simp [extractPhase, hres]
  | some enr =>
    simp only [extractPhase, hres]
    exact ((wave2Instagram_frame _ _ _ _).1).trans
      ((((wave2Twitter_frame _ _ _ _).1).trans ((wave2Articles_frame _ _ _ _).1)).trans hres)

theorem extractPhase_articles_of_handle (input_data : ResearchInput)
    (res : ResearchResults) (ids : SubmitIds) (net : Net) (id : String)
    (hid : ids.articles = some id) :
    (extractPhase input_data res ids net).1.articles = res.articles := by
  cases hres : res.enrichment with
  | none => simp [extractPhase, hres]
  | some enr =>
    simp only [extractPhase, hres, hid]
    rw [wave2Articles_skip]
    exact ((wave2Instagram_frame _ _ _ _).2.1).trans ((wave2Twitter_frame _ _ _ _).2.1)

theorem extractPhase_twitter_of_handle (input_data : ResearchInput)
    (res : ResearchResults) (ids : SubmitIds) (net : Net) (id : String)
    (hid : ids.following_twitter = some id) :
    (extractPhase input_data res ids net).1.following_twitter = res.following_twitter := by
  cases hres : res.enrichment with
  | none => simp [extractPhase, hres]
  | some enr =>
    simp only [extractPhase, hres, hid]
    rw [wave2Twitter_skip]
    exact ((wave2Instagram_frame _ _ _ _).2.2).trans ((wave2Articles_frame _ _ _ _).2.1)

theorem extractPhase_instagram_of_handle (input_data : ResearchInput)
    (res : ResearchResults) (ids : SubmitIds) (net : Net) (id : String)
    (hid : ids.following_instagram = some id) :
    (extractPhase input_data res ids net).1.following_instagram = res.following_instagram := by
  cases hres : res.enrichment with
  | none => simp [extractPhase, hres]
  | some enr =>
    simp only [extractPhase, hres, hid]
    rw [wave2Instagram_skip]
    exact ((wave2Twitter_frame _ _ _ _).2.2).trans ((wave2Articles_frame _ _ _ _).2.2)

theorem extractPhase_preserves_articles (input_data : ResearchInput)
    (res : ResearchResults) (ids : SubmitIds) (net : Net) (p : PollData)
    (hlink : ids.articles = none → res.articles = none)
    (hp : res.articles = some p) :
    (extractPhase input_data res ids net).1.articles = some p := by
  cases hid : ids.articles with
  | some id => rw [extractPhase_articles_of_handle input_data res ids net id hid]; exact hp
  | none => rw [hlink hid] at hp; exact Option.noConfusion hp

theorem extractPhase_preserves_twitter (input_data : ResearchInput)
    (res : ResearchResults) (ids : SubmitIds) (net : Net) (p : PollData)
    (hp : res.following_twitter = some p) :
    (extractPhase input_data res ids net).1.following_twitter = some p := by
  cases hres : res.enrichment with
  | none => simp [extractPhase, hres, hp]
  | some enr =>
    simp only [extractPhase, hres]
    have hA := ((wave2Articles_frame (deriveNameCompany input_data
      ((enr.result.getD ResultPayload.empty))) ids.articles res net).2.1).trans hp
    rw [wave2Twitter_slot_filled _ _ _ _ p hA]
    exact ((wave2Instagram_frame _ _ _ _).2.2).trans hA

theorem extractPhase_preserves_instagram (input_data : ResearchInput)
    (res : ResearchResults) (ids : SubmitIds) (net : Net) (p : PollData)
    (hp : res.following_instagram = some p) :
    (extractPhase input_data res ids net).1.following_instagram = some p := by
  cases hres : res.enrichment with
  | none => simp [extractPhase, hres, hp]
  | some enr =>
    simp only [extractPhase, hres]
    have hA := ((wave2Articles_frame (deriveNameCompany input_data
      ((enr.result.getD ResultPayload.empty))) ids.articles res net).2.2).trans hp
    have hT := ((wave2Twitter_frame ids.following_twitter
      (wave2Articles (deriveNameCompany input_data (enr.result.getD ResultPayload.empty))
        ids.articles res net).1
      ((enr.result.getD ResultPayload.empty).socialProfiles.getD SocialProfiles.empty)
      net).2.2).trans hA
    rw [wave2Instagram_slot_filled _ _ _ _ p hT]
    exact hT

theorem deep_research_no_ids (input_data : ResearchInput) (cfg : Config) (net : Net)
    (hd : Headers) (hcred : get_headers cfg = some hd)
    (he : (submitPhase input_data net).1.isEmpty = true) :
    deep_research input_data cfg net =
      (ResearchResults.initial, input_data, (submitPhase input_data net).2) := by
  simp [deep_research, hcred, he]

theorem deep_research_main (input_data : ResearchInput) (cfg : Config) (net : Net)
    (hd : Headers) (hcred : get_headers cfg = some hd)
    (he : (submitPhase input_data net).1.isEmpty = false) :
    deep_research input_data cfg net =
      ((extractPhase input_data (pollPhase (submitPhase input_data net).1 net).1
          (submitPhase input_data net).1 net).1,
       (extractPhase input_data (pollPhase (submitPhase input_data net).1 net).1
          (submitPhase input_data net).1 net).2.1,
       (submitPhase input_data net).2 ++ (pollPhase (submitPhase input_data net).1 net).2 ++
         (extractPhase input_data (pollPhase (submitPhase input_data net).1 net).1
            (submitPhase input_data net).1 net).2.2) := by
  simp [deep_research, hcred, he]

theorem wave2Articles_submit_needs_no_handle (input_data : ResearchInput)
    (artId : Option String) (res : ResearchResults) (net : Net)
    (h : (wave2Articles input_data artId res net).2 ≠ []) : artId = none := by
  by_cases hg : (pyTruthy input_data.name && pyTruthy input_data.company && artId.isNone) = true
  · simp only [Bool.and_eq_true] at hg
    exact Option.isNone_iff_eq_none.mp hg.2
  · exact absurd (by simp [wave2Articles, hg]) h

theorem wave2Twitter_submit_needs_empty_slot (twId : Option String)
    (res : ResearchResults) (sp : SocialProfiles) (net : Net)
    (h : (wave2Twitter twId res sp net).2 ≠ []) :
    twId = none ∧ res.following_twitter = none := by
  by_cases hg : (twId.isNone && res.following_twitter.isNone) = true
  · simp only [Bool.and_eq_true] at hg
    exact ⟨Option.isNone_iff_eq_none.mp hg.1, Option.isNone_iff_eq_none.mp hg.2⟩
  · exact absurd (by simp [wave2Twitter, hg]) h

theorem wave2Instagram_submit_needs_empty_slot (igId : Option String)
    (res : ResearchResults) (sp : SocialProfiles) (net : Net)
    (h : (wave2Instagram igId res sp net).2 ≠ []) :
    igId = none ∧ res.following_instagram = none := by
  by_cases hg : (igId.isNone && res.following_instagram.isNone) = true
  · simp only [Bool.and_eq_true] at hg
    exact ⟨Option.isNone_iff_eq_none.mp hg.1, Option.isNone_iff_eq_none.mp hg.2⟩
  · exact absurd (by simp [wave2Instagram, hg]) h

/-- C4: across one research run with credentials present, no
`ResearchResults` field populated by a wave-1 `Completed` poll is ever
overwritten: the enrichment slot is exactly the wave-1 value, each
wave-1-populated following/article slot survives to the final result
verbatim, and a wave-2 branch only issues network traffic at all when the
wave-1 side never took a handle for that slot (which forces the slot to be
empty going into wave 2), so every field is written at most once. -/
theorem C4_wave1_fields_never_overwritten (input_data : ResearchInput)
    (cfg : Config) (net : Net) (hd : Headers)
    (hcred : get_headers cfg = some hd) :
    ((deep_research input_data cfg net).1.enrichment =
      (pollPhase (submitPhase input_data net).1 net).1.enrichment) ∧
    (∀ p, (pollPhase (submitPhase input_data net).1 net).1.articles = some p →
      (deep_research input_data cfg net).1.articles = some p) ∧
    (∀ p, (pollPhase (submitPhase input_data net).1 net).1.following_twitter = some p →
      (deep_research input_data cfg net).1.following_twitter = some p) ∧
    (∀ p, (pollPhase (submitPhase input_data net).1 net).1.following_instagram = some p →
      (deep_research input_data cfg net).1.following_instagram = some p) ∧
    ((submitPhase input_data net).1.articles = none →
      (pollPhase (submitPhase input_data net).1 net).1.articles = none) ∧
    (∀ input1 artId res1 net1, (wave2Articles input1 artId res1 net1).2 ≠ [] →
      artId = none) ∧
    (∀ twId res1 sp1 net1, (wave2Twitter twId res1 sp1 net1).2 ≠ [] →
      twId = none ∧ res1.following_twitter = none) ∧
    (∀ igId res1 sp1 net1, (wave2Instagram igId res1 sp1 net1).2 ≠ [] →
      igId = none ∧ res1.following_instagram = none) := by
  by_cases he : (submitPhase input_data net).1.isEmpty = true
  · obtain ⟨h1, h2, h3, h4⟩ := submitIds_isEmpty_eq _ he
    rw [deep_research_no_ids input_data cfg net hd hcred he]
    refine ⟨?_, ?_, ?_, ?_, ?_, ?_, ?_, ?_⟩
    · rw [pollPhase_enrichment_none _ _ h1]; rfl
    · intro p hp; rw [pollPhase_articles_none _ _ h4] at hp; exact Option.noConfusion hp
    · intro p hp; rw [pollPhase_twitter_none _ _ h2] at hp; exact Option.noConfusion hp
    · intro p hp; rw [pollPhase_instagram_none _ _ h3] at hp; exact Option.noConfusion hp
    · intro h; exact pollPhase_articles_none _ _ h
    · exact fun input1 artId res1 net1 h => wave2Articles_submit_needs_no_handle _ _ _ _ h
    · exact fun twId res1 sp1 net1 h => wave2Twitter_submit_needs_empty_slot _ _ _ _ h
    · exact fun igId res1 sp1 net1 h => wave2Instagram_submit_needs_empty_slot _ _ _ _ h
  · have he2 : (submitPhase input_data net).1.isEmpty = false := by
      cases hb : (submitPhase input_data net).1.isEmpty
      · rfl
      · exact absurd hb he
    rw [deep_research_main input_data cfg net hd hcred he2]
    refine ⟨?_, ?_, ?_, ?_, ?_, ?_, ?_, ?_⟩
    · exact extractPhase_enrichment _ _ _ _
    · intro p hp
      exact extractPhase_preserves_articles _ _ _ _ p
        (fun hnone => pollPhase_articles_none _ _ hnone) hp
    · intro p hp; exact extractPhase_preserves_twitter _ _ _ _ p hp
    · intro p hp; exact extractPhase_preserves_instagram _ _ _ _ p hp
    · intro h; exact pollPhase_articles_none _ _ h
    · exact fun input1 artId res1 net1 h => wave2Articles_submit_needs_no_handle _ _ _ _ h
    · exact fun twId res1 sp1 net1 h => wave2Twitter_submit_needs_empty_slot _ _ _ _ h
    · exact fun igId res1 sp1 net1 h => wave2Instagram_submit_needs_empty_slot _ _ _ _ h

/-- C9: a wave-2 attempt is gated on the wave-1 *handle*, not on the poll
outcome: each wave-2 branch is an exact no-op (no request, no change) as
soon as wave 1 took a submission handle for its slot, and consequently a
job whose wave-1 submission yielded a request id but whose poll came back
empty (`Failed` or `TimedOut` both surface as `None`) is never re-submitted
— its slot stays empty for the whole run. -/
theorem C9_wave2_gated_on_handle_not_poll (input_data : ResearchInput)
    (cfg : Config) (net : Net) (hd : Headers)
    (hcred : get_headers cfg = some hd) :
    (∀ id input1 res1 net1, wave2Articles input1 (some id) res1 net1 = (res1, [])) ∧
    (∀ id res1 sp1 net1, wave2Twitter (some id) res1 sp1 net1 = (res1, [])) ∧
    (∀ id res1 sp1 net1, wave2Instagram (some id) res1 sp1 net1 = (res1, [])) ∧
    (∀ id, (submitPhase input_data net).1.articles = some id →
      (pollPhase (submitPhase input_data net).1 net).1.articles = none →
      (deep_research input_data cfg net).1.articles = none) ∧
    (∀ id, (submitPhase input_data net).1.following_twitter = some id →
      (pollPhase (submitPhase input_data net).1 net).1.following_twitter = none →
      (deep_research input_data cfg net).1.following_twitter = none) ∧
    (∀ id, (submitPhase input_data net).1.following_instagram = some id →
      (pollPhase (submitPhase input_data net).1 net).1.following_instagram = none →
      (deep_research input_data cfg net).1.following_instagram = none) := by
  refine ⟨fun id input1 res1 net1 => wave2Articles_skip input1 id res1 net1,
    fun id res1 sp1 net1 => wave2Twitter_skip id res1 sp1 net1,
    fun id res1 sp1 net1 => wave2Instagram_skip id res1 sp1 net1, ?_, ?_, ?_⟩ <;>
    intro id hid hpoll <;>
    by_cases he : (submitPhase input_data net).1.isEmpty = true
  · rw [deep_research_no_ids input_data cfg net hd hcred he]; rfl
  · have he2 : (submitPhase input_data net).1.isEmpty = false := by
      cases hb : (submitPhase input_data net).1.isEmpty
      · rfl
      · exact absurd hb he
    rw [deep_research_main input_data cfg net hd hcred he2]
    rw [extractPhase_articles_of_handle _ _ _ _ id hid]
    exact hpoll
  · rw [deep_research_no_ids input_data cfg net hd hcred he]; rfl
  · have he2 : (submitPhase input_data net).1.isEmpty = false := by
      cases hb : (submitPhase input_data net).1.isEmpty
      · rfl
      · exact absurd hb he
    rw [deep_research_main input_data cfg net hd hcred he2]
    rw [extractPhase_twitter_of_handle _ _ _ _ id hid]
    exact hpoll
  · rw [deep_research_no_ids input_data cfg net hd hcred he]; rfl
  · have he2 : (submitPhase input_data net).1.isEmpty = false := by
      cases hb : (submitPhase input_data net).1.isEmpty
      · rfl
      · exact absurd hb he
    rw [deep_research_main input_data cfg net hd hcred he2]
    rw [extractPhase_instagram_of_handle _ _ _ _ id hid]
    exact hpoll

/-- The header record built from `testCfg`. -/
def goodHeaders : Headers :=
  { xApiKey := "key", xApiSecret := "secret", contentType := "application/json" }

/-- A completed enrichment body for Jane Doe at Acme. -/
def janeResult : ResultPayload :=
  { firstname := some "Jane", lastname := some "Doe", headline := none,
    careersInfo := some [{ companyName := some "Acme" }],
    socialProfiles := none, interactions := none }

/-- The completed enrichment poll payload. -/
def enrichDone : PollData := { status := some "completed", result := some janeResult }

/-- A completed article-search poll payload. -/
def artDone : PollData := { status := some "completed", result := some ResultPayload.empty }

/-- A submission response carrying a request id. -/
def okSubmit (id : String) : Option SubmitResp :=
  some { success := true, requestId := some id }

/-- Input whose caller already supplies name and company (so article search
runs in wave 1). -/
def w4input : ResearchInput :=
  { email := some "jane@acme.example", linkedin_url := none, twitter_url := none,
    instagram_url := none, name := some "Jane Doe", company := some "Acme" }

/-- A provider completing both the enrichment and the article search. -/
def w4net : Net :=
  { enrichResp := fun _ => okSubmit "e1",
    followResp := fun _ => none,
    articleResp := fun _ => okSubmit "a1",
    pollResp := fun ep _ _ =>
      if ep == "/person/enrichment" then some { success := true, data := some enrichDone }
      else if ep == "/person/articlesearch" then
        some { success := true, data := some artDone }
      else none }

/-- Witness for C4: the article payload completed in wave 1 survives the
whole run unchanged. -/
theorem C4_wave1_fields_never_overwritten_witness :
    (pollPhase (submitPhase w4input w4net).1 w4net).1.articles = some artDone ∧
    (deep_research w4input testCfg w4net).1.articles = some artDone :=
  ⟨rfl, (C4_wave1_fields_never_overwritten w4input testCfg w4net goodHeaders rfl).2.1
    artDone rfl⟩

/-- A provider that accepts the article submission but then reports the job
failed, while the enrichment completes. -/
def w9net : Net :=
  { enrichResp := fun _ => okSubmit "e1",
    followResp := fun _ => none,
    articleResp := fun _ => okSubmit "a1",
    pollResp := fun ep _ _ =>
      if ep == "/person/enrichment" then some { success := true, data := some enrichDone }
      else if ep == "/person/articlesearch" then
        some { success := true, data := some { status := some "failed", result := none } }
      else none }

/-- Witness for C9: the wave-1 article submission took handle `a1`, its poll
failed, and even though name and company are known the slot stays empty for
the run (no wave-2 re-submission). -/
theorem C9_wave2_gated_on_handle_not_poll_witness :
    (submitPhase w4input w9net).1.articles = some "a1" ∧
    (deep_research w4input testCfg w9net).1.articles = none :=
  ⟨rfl, (C9_wave2_gated_on_handle_not_poll w4input testCfg w9net goodHeaders rfl).2.2.2.1
    "a1" rfl rfl⟩

/-- An enrichment result with the last name missing (derivation of the name
must be skipped, company still derived). -/
def janeNoLast : ResultPayload :=
  { firstname := some "Jane", lastname := none, headline := none,
    careersInfo := some [{ companyName := some "Acme" }],
    socialProfiles := none, interactions := none }

/-- Completed enrichment poll payload for the missing-lastname scenario. -/
def enrichDoneNoLast : PollData :=
  { status := some "completed", result := some janeNoLast }

/-- A provider completing only the enrichment, with the lastname missing. -/
def c6netB : Net :=
  { enrichResp := fun _ => okSubmit "e1",
    followResp := fun _ => none,
    articleResp := fun _ => okSubmit "a1",
    pollResp := fun ep _ _ =>
      if ep == "/person/enrichment" then
        some { success := true, data := some enrichDoneNoLast }
      else none }

/-- C6: with no caller-supplied name/company and an enrichment payload
carrying firstname Jane, lastname Doe and careers_info [\x7bcompany_name:
Acme\x7d], the run derives name "Jane Doe" and company "Acme" after wave 1
and its wave-2 article-search POST carries exactly those values (whole-run
log shown verbatim); when the lastname is absent the name derivation is
silently skipped — company is still derived, no article search is
attempted, and the run still returns normally. -/
theorem C6_derived_article_search :
    ((deep_research emailOnlyInput testCfg w4net).2.1.name = some "Jane Doe" ∧
     (deep_research emailOnlyInput testCfg w4net).2.1.company = some "Acme" ∧
     (deep_research emailOnlyInput testCfg w4net).2.2 =
       [NetCall.postEnrichment (enrichPayload emailOnlyInput),
        NetCall.getPoll "/person/enrichment" "e1",
        NetCall.postArticles
          { name := "Jane Doe", company := "Acme", sort := "recent", limit := 15 },
        NetCall.getPoll "/person/articlesearch" "a1"] ∧
     (deep_research emailOnlyInput testCfg w4net).1.articles = some artDone) ∧
    ((deep_research emailOnlyInput testCfg c6netB).2.1.name = none ∧
     (deep_research emailOnlyInput testCfg c6netB).2.1.company = some "Acme" ∧
     (deep_research emailOnlyInput testCfg c6netB).2.2 =
       [NetCall.postEnrichment (enrichPayload emailOnlyInput),
        NetCall.getPoll "/person/enrichment" "e1"]) := by
  exact ⟨⟨rfl, rfl, rfl, rfl⟩, ⟨rfl, rfl, rfl⟩⟩

/-- C10: `deep_research` writes the derived name and company back into the
caller-supplied `ResearchInput` record (the source mutates the dataclass in
place; the embedding returns the record's final state): the record passed
in had no name and no company, and after the run it carries the name and
company derived from the enrichment payload — the caller's record differs
from what was passed in. -/
theorem C10_input_record_mutated :
    emailOnlyInput.name = none ∧ emailOnlyInput.company = none ∧
    (deep_research emailOnlyInput testCfg w4net).2.1 =
      { emailOnlyInput with name := some "Jane Doe", company := some "Acme" } ∧
    (deep_research emailOnlyInput testCfg w4net).2.1.name = some "Jane Doe" ∧
    (deep_research emailOnlyInput testCfg w4net).2.1.company = some "Acme" := by
  exact ⟨rfl, rfl, rfl, rfl, rfl⟩

theorem sortAnalyses_of_perm (orig done : List (Nat × String))
    (hsort : List.Pairwise (fun a b => a.1 < b.1) orig)
    (hperm : done.Perm orig) :
    sortAnalyses done = orig := by
  haveI : IsTotal (Nat × String) (fun a b => a.1 ≤ b.1) :=
    ⟨fun a b => Nat.le_total a.1 b.1⟩
  haveI : IsTrans (Nat × String) (fun a b => a.1 ≤ b.1) :=
    ⟨fun _ _ _ h1 h2 => Nat.le_trans h1 h2⟩
  haveI : IsAntisymm (Nat × String) (fun a b => a.1 < b.1) :=
    ⟨fun _ _ h1 h2 => (Nat.lt_asymm h1 h2).elim⟩
  have hperm2 : (sortAnalyses done).Perm orig :=
    (List.perm_insertionSort _ done).trans hperm
  have hsorted : List.Sorted (fun a b : Nat × String => a.1 ≤ b.1) (sortAnalyses done) :=
    List.sorted_insertionSort _ done
  have hkeysnd : (orig.map Prod.fst).Nodup :=
    List.pairwise_map.mpr (hsort.imp fun h => Nat.ne_of_lt h)
  have hnd2 : ((sortAnalyses done).map Prod.fst).Nodup :=
    ((hperm2.map Prod.fst).symm).nodup hkeysnd
  have hne : List.Pairwise (fun a b : Nat × String => a.1 ≠ b.1) (sortAnalyses done) :=
    List.pairwise_map.mp hnd2
  have hstrict : List.Pairwise (fun a b : Nat × String => a.1 < b.1) (sortAnalyses done) :=
    (hsorted.and hne).imp fun h => Nat.lt_of_le_of_ne h.1 h.2
  exact List.eq_of_perm_of_sorted hperm2 hstrict hsort

theorem batchFollowing_200 (l : List FollowEntry) (h : l.length = 200) :
    (batchFollowing l 75).map List.length = [75, 75, 50] ∧
    (batchFollowing l 75).flatten = l := by
  cases l with
  | nil => simp at h
  | cons a as =>
    have hthree : ((a :: as).length + 75 - 1) / 75 = 3 := by rw [h]
    have hb : batchFollowing (a :: as) 75 =
        [List.take 75 (a :: as), List.take 75 (List.drop 75 (a :: as)),
         List.take 75 (List.drop 150 (a :: as))] := by
      simp only [batchFollowing, hthree]
      rfl
    have h150 : (List.drop 150 (a :: as)).length = 50 := by
      rw [List.length_drop, h]
    have ht : List.take 75 (List.drop 150 (a :: as)) = List.drop 150 (a :: as) :=
      List.take_of_length_le (by rw [h150]; norm_num)
    have e2 : List.drop 75 (a :: as) =
        List.take 75 (List.drop 75 (a :: as)) ++ List.drop 75 (List.drop 75 (a :: as)) :=
      (List.take_append_drop _ _).symm
    have e3 : List.drop 75 (List.drop 75 (a :: as)) = List.drop 150 (a :: as) := by
      rw [List.drop_drop]
    constructor
    · rw [hb]
      simp only [List.map_cons, List.map_nil, List.length_take, List.length_drop, h]
      decide
    · rw [hb]
      simp only [List.flatten_cons, List.flatten_nil, List.append_nil, ht]
      rw [← e3, ← e2, List.take_append_drop]

/-- C7: the Batch Analyzer splits a 200-entry merged following list at
window size 75 into exactly three batches of sizes 75, 75 and 50 whose
concatenation is the original list (entry order preserved); and whatever
order the concurrent batch analyses complete in — any permutation of the
index-tagged results — the index sort restores ascending batch order, so
the reassembled analysis sequence always equals the sequence read off in
batch-index order. -/
theorem C7_batching_and_reassembly_order :
    (∀ (l : List FollowEntry), l.length = 200 →
      (batchFollowing l 75).map List.length = [75, 75, 50] ∧
      (batchFollowing l 75).flatten = l) ∧
    (∀ (orig done : List (Nat × String)),
      List.Pairwise (fun a b => a.1 < b.1) orig → done.Perm orig →
      (sortAnalyses done).map Prod.snd = orig.map Prod.snd) := by
  refine ⟨batchFollowing_200, ?_⟩
  intro orig done hsort hperm
  rw [sortAnalyses_of_perm orig done hsort hperm]

/-- A concrete 200-entry following list. -/
def w7list : List FollowEntry :=
  (List.range 200).map fun i => { handle := toString i, src := none }

/-- Witness for C7 on the concrete 200-entry list and a shuffled completion
order of three tagged batch analyses. -/
theorem C7_batching_and_reassembly_order_witness :
    w7list.length = 200 ∧
    (batchFollowing w7list 75).map List.length = [75, 75, 50] ∧
    (sortAnalyses [(2, "c"), (0, "a"), (1, "b")]).map Prod.snd = ["a", "b", "c"] :=
  ⟨by rfl,
   (C7_batching_and_reassembly_order.1 w7list (by rfl)).1,
   by
     have := C7_batching_and_reassembly_order.2 [(0, "a"), (1, "b"), (2, "c")]
       [(2, "c"), (0, "a"), (1, "b")] (by decide) (by decide)
     simpa using this⟩

/-- LLM keys for gemini and openai, none for anthropic. -/
def c8cfg : LLMConfig :=
  { geminiKey := some "gk", openaiKey := some "ok", anthropicKey := none }

/-- A backend environment in which every gemini call fails while openai
would produce text. -/
def c8env : LLMEnv :=
  { gemini := fun _ => none, openai := fun _ => some "THE DOSSIER",
    anthropic := fun _ => none }

/-- Research results holding only an enrichment payload. -/
def c8results : ResearchResults :=
  { enrichment := some enrichDone, following_twitter := none,
    following_instagram := none, articles := none, errors := some [] }

/-- C8 (counterexample): in auto mode with a configured gemini key whose
every call fails and a configured openai backend that would succeed, the
dossier generator used by the CLI and the programmatic API returns nothing —
it never moves on to the next backend — while only the legacy generator
falls through and produces the openai text. -/
theorem C8_auto_counterexample :
    generate_dossier c8results c8cfg c8env "auto" = none ∧
    legacy_generate_dossier c8results c8cfg c8env "auto" = some "THE DOSSIER" := by
  exact ⟨rfl, rfl⟩

/-- C8 (amended): in auto mode the primary generator picks the first
backend of the fixed order gemini, openai, anthropic whose API key is
configured and uses only that backend — if its calls produce nothing the
dossier is nothing, with no fallback to the later backends; only the legacy
generator walks the three backends in that order until one produces text. -/
theorem C8_auto_selects_first_key_only (cfg : LLMConfig) (env : LLMEnv)
    (results : ResearchResults) :
    (pyTruthy cfg.geminiKey = true → get_llm_caller cfg "auto" = some LLMName.gemini) ∧
    (pyTruthy cfg.geminiKey = false → pyTruthy cfg.openaiKey = true →
      get_llm_caller cfg "auto" = some LLMName.openai) ∧
    (pyTruthy cfg.geminiKey = false → pyTruthy cfg.openaiKey = false →
      pyTruthy cfg.anthropicKey = true →
      get_llm_caller cfg "auto" = some LLMName.anthropic) ∧
    (pyTruthy cfg.geminiKey = true → (∀ p, env.gemini p = none) →
      generate_dossier results cfg env "auto" = none) ∧
    (dossierData results ≠ [] →
      legacy_generate_dossier results cfg env "auto" =
        firstSome [call_gemini cfg env (legacyPrompt results),
          call_openai cfg env (legacyPrompt results),
          call_anthropic cfg env (legacyPrompt results)]) := by
  refine ⟨?_, ?_, ?_, ?_, ?_⟩
  · intro hg; simp [get_llm_caller, hg]
  · intro hg ho; simp [get_llm_caller, hg, ho]
  · intro hg ho ha; simp [get_llm_caller, hg, ho, ha]
  · intro hg hnone
    have hsel : get_llm_caller cfg "auto" = some LLMName.gemini := by
      simp [get_llm_caller, hg]
    simp [generate_dossier, hsel, call_llm, call_gemini, hg, hnone]
  · intro hne
    have hie : (dossierData results).isEmpty = false := by
      simpa using hne
    simp [legacy_generate_dossier, hie, call_llm]

/-- LLM key configured for openai only. -/
def cfgOpenaiOnly : LLMConfig :=
  { geminiKey := none, openaiKey := some "ok", anthropicKey := none }

/-- LLM key configured for anthropic only. -/
def cfgAnthropicOnly : LLMConfig :=
  { geminiKey := none, openaiKey := none, anthropicKey := some "ak" }

/-- Witness for C8 (amended): selection at each key configuration, the
no-fallback outcome, and the legacy try-in-order equation, on concrete
data. -/
theorem C8_auto_selects_first_key_only_witness :
    get_llm_caller c8cfg "auto" = some LLMName.gemini ∧
    get_llm_caller cfgOpenaiOnly "auto" = some LLMName.openai ∧
    get_llm_caller cfgAnthropicOnly "auto" = some LLMName.anthropic ∧
    generate_dossier c8results c8cfg c8env "auto" = none ∧
    legacy_generate_dossier c8results c8cfg c8env "auto" =
      firstSome [call_gemini c8cfg c8env (legacyPrompt c8results),
        call_openai c8cfg c8env (legacyPrompt c8results),
        call_anthropic c8cfg c8env (legacyPrompt c8results)] :=
  ⟨(C8_auto_selects_first_key_only c8cfg c8env c8results).1 rfl,
   (C8_auto_selects_first_key_only cfgOpenaiOnly c8env c8results).2.1 rfl rfl,
   (C8_auto_selects_first_key_only cfgAnthropicOnly c8env c8results).2.2.1 rfl rfl rfl,
   (C8_auto_selects_first_key_only c8cfg c8env c8results).2.2.2.1 rfl (fun _ => rfl),
   (C8_auto_selects_first_key_only c8cfg c8env c8results).2.2.2.2 (by decide)⟩
